import Mathlib

/-!
Shallow embedding of the token component of the Go user-management service
(`src/utils/token/token.go`) and of the user HTTP handlers that call it
(`src/handler/userHandler.go`).

The token functions wrap `github.com/dgrijalva/jwt-go` (v3.2.0).  That
library is embedded here at the level of its observable semantics:

* the byte-level compact serialization (base64url of JSON segments) is
  modelled symbolically by the inductive type `TokenStr`: a string that is
  structurally a three-part compact token with decodable segments is the
  constructor `TokenStr.compact` carrying the header's `alg` value, the
  decoded claims and the decoded signature bytes; every other string is
  `TokenStr.garbage` carrying the raw text;
* HMAC is modelled as an ideal MAC: `hmacSign alg key input` is a formal
  tag that is equal to another tag exactly when the algorithm, the key and
  the signed content all coincide (no collisions, standard symbolic-crypto
  idealization);
* the clock (`jwt.TimeFunc`, i.e. `time.Now`) is passed explicitly as a
  Unix-seconds integer `now`.

Go's `(value, error)` multi-returns are embedded as pairs of `Option`s so
that every combination the Go code can produce — including `(nil, nil)` —
is representable.
-/

namespace GoJwt

/-- The process-wide signing secret.
Go: `var JwtToken = []byte("jwtToken")` (token.go line 9).
Byte slices are modelled as Lean strings. -/
def JwtToken : String := "jwtToken"

/-- The numeric registered claims of `jwt.StandardClaims` (dgrijalva/jwt-go
`claims.go`).  The string-valued fields (`aud`, `jti`, `iss`, `sub`) play no
part in `StandardClaims.Valid` and are never set by this repository, so they
are omitted.  A value of `0` means the claim is absent: each field is tagged
`omitempty` in the library, so a zero claim is not serialized at all. -/
structure StandardClaims where
  ExpiresAt : Int := 0
  IssuedAt : Int := 0
  NotBefore : Int := 0
deriving DecidableEq, Repr

/-- The claims type of token.go lines 11-15:
`type Claims struct { Email string; Role string; jwt.StandardClaims }`. -/
structure Claims where
  Email : String
  Role : String
  std : StandardClaims := {}
deriving DecidableEq, Repr

/-- The content covered by a token's signature: in the compact encoding this
is `header.payload`, i.e. the header's algorithm name together with the
serialized claims (claims serialization is injective for this claims type,
so the pair is kept in decoded form). -/
structure SigningInput where
  alg : String
  claims : Claims
deriving DecidableEq, Repr

/-- Signature bytes in the ideal-MAC model: a tag determined by, and
determining, the algorithm, the key and the signed content.  Two tags are
equal iff all three components are equal, which idealizes the
collision-resistance of HMAC-SHA256. -/
structure Sig where
  alg : String
  key : String
  input : SigningInput
deriving DecidableEq, Repr

/-- `jwt.SigningMethodHMAC.Sign` in the ideal-MAC model. -/
def hmacSign (alg key : String) (input : SigningInput) : Sig :=
  { alg := alg, key := key, input := input }

/-- The `Errors` bitmask of `jwt.ValidationError` (dgrijalva/jwt-go
`errors.go`), restricted to the flags the modelled code paths can set.
Mirrors `ValidationErrorMalformed`, `ValidationErrorUnverifiable`,
`ValidationErrorSignatureInvalid`, `ValidationErrorExpired`,
`ValidationErrorIssuedAt`, `ValidationErrorNotValidYet`. -/
structure ValidationError where
  Malformed : Bool := false
  Unverifiable : Bool := false
  SignatureInvalid : Bool := false
  Expired : Bool := false
  IssuedAt : Bool := false
  NotValidYet : Bool := false
deriving DecidableEq, Repr

/-- `(e *ValidationError) valid()`: no error flag is set. -/
def ValidationError.isValid (e : ValidationError) : Bool :=
  !e.Malformed && !e.Unverifiable && !e.SignatureInvalid &&
    !e.Expired && !e.IssuedAt && !e.NotValidYet

/-- A Go string holding a candidate token, at the granularity the parser
observes: either structurally a three-part dot-separated compact token with
decodable header/payload/signature segments, or anything else. -/
inductive TokenStr where
  /-- A well-formed compact serialization `header.payload.signature`: the
  header JSON carries `alg`, the payload decodes to `Claims`, the third
  segment decodes to signature bytes. -/
  | compact (alg : String) (claims : Claims) (sig : Sig)
  /-- Any other string: not three dot-separated segments, or segments that
  fail base64url/JSON decoding.  `jwt.Parser.ParseUnverified` rejects these
  with `ValidationErrorMalformed`. -/
  | garbage (raw : String)
deriving DecidableEq, Repr

/-- The algorithm names registered with the library at init
(`jwt.GetSigningMethod` succeeds exactly on these). -/
def registeredAlgs : List String :=
  ["none", "ES256", "ES384", "ES512", "HS256", "HS384", "HS512",
   "RS256", "RS384", "RS512", "PS256", "PS384", "PS512"]

/-- `jwt.SigningMethod.Verify` for the key this repository supplies (a byte
slice).  The HMAC methods recompute the tag and compare; every non-HMAC
registered method rejects a byte-slice key (`none` requires the
`UnsafeAllowNoneSignatureType` sentinel, RSA/ECDSA require public keys), so
verification fails for them. -/
def methodVerify (alg : String) (input : SigningInput) (sig : Sig) (key : String) : Bool :=
  if alg = "HS256" || alg = "HS384" || alg = "HS512" then
    sig == hmacSign alg key input
  else
    false

/-- `jwt.StandardClaims.VerifyExpiresAt cmp req` with `req = false`:
an absent (`0`) claim passes; otherwise the token is unexpired iff
`cmp <= exp`. -/
def verifyExp (exp now : Int) (required : Bool) : Bool :=
  if exp = 0 then !required else decide (now ≤ exp)

/-- `jwt.StandardClaims.VerifyIssuedAt cmp req` with `req = false`. -/
def verifyIat (iat now : Int) (required : Bool) : Bool :=
  if iat = 0 then !required else decide (iat ≤ now)

/-- `jwt.StandardClaims.VerifyNotBefore cmp req` with `req = false`. -/
def verifyNbf (nbf now : Int) (required : Bool) : Bool :=
  if nbf = 0 then !required else decide (nbf ≤ now)

/-- `jwt.StandardClaims.Valid` (promoted to the repository's `Claims` by
struct embedding): collects the expired / issued-at / not-before flags at
time `now`. -/
def Claims.validate (c : Claims) (now : Int) : ValidationError :=
  { Expired := !verifyExp c.std.ExpiresAt now false
    IssuedAt := !verifyIat c.std.IssuedAt now false
    NotValidYet := !verifyNbf c.std.NotBefore now false }

/-- The `*jwt.Token` fields `ValidateToken` consumes: the decoded claims
and the `Valid` flag. -/
structure ParsedToken where
  claims : Claims
  valid : Bool
deriving DecidableEq, Repr

/-- `jwt.Parser.ParseWithClaims` (dgrijalva/jwt-go v3.2.0 `parser.go`) for a
key-function that always returns byte-slice `key` and never errors, with
`ValidMethods` empty and `SkipClaimsValidation` false:

1. `ParseUnverified`: a structurally malformed string fails with the
   `Malformed` flag and a nil token; an unregistered `alg` fails with the
   `Unverifiable` flag;
2. `Claims.Valid` collects claim errors into `vErr`;
3. signature verification failure sets the `SignatureInvalid` flag on
   `vErr`;
4. if no flag is set the token is marked `Valid` and the error is nil,
   otherwise `vErr` is returned and `Valid` stays false. -/
def parseWithClaims (s : TokenStr) (now : Int) (key : String) :
    Option ParsedToken × Option ValidationError :=
  match s with
  | .garbage _ => (none, some { Malformed := true })
  | .compact alg claims sig =>
    if !(registeredAlgs.contains alg) then
      (some { claims := claims, valid := false }, some { Unverifiable := true })
    else
      let vErr := claims.validate now
      let vErr2 :=
        if methodVerify alg { alg := alg, claims := claims } sig key then vErr
        else { vErr with SignatureInvalid := true }
      if vErr2.isValid then (some { claims := claims, valid := true }, none)
      else (some { claims := claims, valid := false }, some vErr2)

/-- `token.SignedString(key)` for HMAC: serialize and sign.  For this claims
type (two strings and integer registered claims) JSON marshalling cannot
fail and `SigningMethodHMAC.Sign` with a byte-slice key has no failure path,
so the error component is always `none`. -/
def signedString (alg : String) (claims : Claims) (key : String) : TokenStr × Option Unit :=
  (.compact alg claims (hmacSign alg key { alg := alg, claims := claims }), none)

/-- `CreateToken` parametrized by the signing key (token.go lines 17-35):
builds `Claims` with `ExpiresAt = time.Now().Add(time.Hour * 12).Unix()`,
i.e. `now + 12 * 3600` Unix seconds, and signs with `jwt.SigningMethodHS256`. -/
def createTokenWithKey (key : String) (now : Int) (email role : String) :
    TokenStr × Option Unit :=
  let expTime := now + 12 * 3600
  let claims : Claims :=
    { Email := email, Role := role, std := { ExpiresAt := expTime } }
  signedString "HS256" claims key

/-- `CreateToken(email, role)` from token.go, reading the package-level
`JwtToken` key; `now` is the current Unix time. -/
def CreateToken (now : Int) (email role : String) : TokenStr × Option Unit :=
  createTokenWithKey JwtToken now email role

/-- `ValidateToken` parametrized by the verification key (token.go lines
37-53).  The Go body:
`token, err := jwt.ParseWithClaims(tokenStr, &Claims{}, jToken)`;
`if err != nil { return nil, err }`;
`if !token.Valid { return nil, err }` — note `err` is necessarily nil at
that point, so this branch returns `(nil, nil)`;
otherwise the claims are returned with a nil error. -/
def validateTokenWithKey (key : String) (tokenStr : TokenStr) (now : Int) :
    Option Claims × Option ValidationError :=
  match parseWithClaims tokenStr now key with
  | (_, some err) => (none, some err)
  | (some token, none) =>
    if !token.valid then (none, none)
    else (some token.claims, none)
  | (none, none) => (none, none)

/-- `ValidateToken(tokenStr)` from token.go, reading the package-level
`JwtToken` key; `now` is the current Unix time. -/
def ValidateToken (tokenStr : TokenStr) (now : Int) : Option Claims × Option ValidationError :=
  validateTokenWithKey JwtToken tokenStr now

/-- The mutable package-level state of the `token` package: the single
`var JwtToken` declaration.  No other package-level variable exists. -/
structure TokenPkgState where
  JwtToken : String
deriving DecidableEq, Repr

/-- `CreateToken` as a state-passing computation over the package state it
can read or write.  The Go body reads `JwtToken` and contains no assignment
to it, which the explicit state threading makes visible. -/
def CreateTokenS (st : TokenPkgState) (now : Int) (email role : String) :
    TokenPkgState × (TokenStr × Option Unit) :=
  (st, createTokenWithKey st.JwtToken now email role)

/-- `ValidateToken` as a state-passing computation over the package state;
like `CreateToken` it reads `JwtToken` and never writes it. -/
def ValidateTokenS (st : TokenPkgState) (tokenStr : TokenStr) (now : Int) :
    TokenPkgState × (Option Claims × Option ValidationError) :=
  (st, validateTokenWithKey st.JwtToken tokenStr now)

end GoJwt

namespace GoHandler

open GoJwt

/-- The user record fields the handlers feed into the token package
(`entities.User` and the login result both expose `Email` and `Role`;
the remaining persistence fields never reach token code). -/
structure UserData where
  Email : String
  Role : String
deriving DecidableEq, Repr

/-- Message constant of the `entities` package (not under src/; its exact
text is irrelevant to the handler logic, only its identity matters). -/
def InternalServer : String := "InternalServer"

/-- Message constant of the `entities` package (as above). -/
def Unauthorized : String := "Unauthorized"

/-- The observable part of a gin JSON response: the HTTP status code and
the `message`, `token` and `data` fields the handlers set. -/
structure GinResponse where
  status : Nat
  message : String
  token : Option TokenStr := none
  data : Option UserData := none
deriving DecidableEq, Repr

/-- What a handler invocation does: either it completes with an HTTP
response, or it panics with a nil-pointer dereference. -/
inductive HandlerOutcome where
  | panicNilDeref
  | resp (r : GinResponse)
deriving DecidableEq, Repr

/-- `userHandler.login` (userHandler.go lines 47-81) from the point where
the request body is bound: `repoResult` is the outcome of
`u.userRepo.Login` (the repository is an external collaborator, modelled by
its result), and `create` is the `token.CreateToken` dependency — in the
running program `fun e r => CreateToken now e r`, kept abstract so that
every outcome its `(string, error)` type allows is covered.  On repository
success the handler runs `token, _ := token.CreateToken(...)`, discarding
the error, and always answers 200 with whatever string came back. -/
def login (create : String → String → TokenStr × Option Unit)
    (repoResult : Option UserData) : GinResponse :=
  match repoResult with
  | none => { status := 500, message := InternalServer }
  | some userLogin =>
    let r := create userLogin.Email userLogin.Role
    { status := 200, message := "user logged in",
      token := some r.fst, data := some userLogin }

/-- `userHandler.register` (userHandler.go lines 84-111) from the point
where the request body is bound, modelled exactly like `login`:
`repoResult` is the outcome of `u.userRepo.Register`, the `CreateToken`
error is discarded, and repository success always answers 200. -/
def register (create : String → String → TokenStr × Option Unit)
    (repoResult : Option UserData) : GinResponse :=
  match repoResult with
  | none => { status := 500, message := InternalServer }
  | some userData =>
    let r := create userData.Email userData.Role
    { status := 200, message := "user registered",
      token := some r.fst, data := some userData }

/-- `userHandler.fetch` (userHandler.go lines 114-136): `fetchResult` is
the outcome of `u.userRepo.Fetch`; on repository success the handler reads
the raw `Authorization` header `auth`, runs
`token, _ := token.ValidateToken(auth)` discarding the error, and then
evaluates `token.Role != "admin"`.  When `ValidateToken` returned a nil
claims pointer that field selection dereferences nil and the goroutine
panics; otherwise a non-admin role gets 401 and an admin role 200.
(The `users` payload of the 200 response is omitted from `GinResponse`;
no claim depends on it.) -/
def fetch (fetchResult : Option (List UserData)) (auth : TokenStr) (now : Int) :
    HandlerOutcome :=
  match fetchResult with
  | none => .resp { status := 500, message := InternalServer }
  | some _ =>
    match ValidateToken auth now with
    | (none, _) => .panicNilDeref
    | (some claims, _) =>
      if claims.Role ≠ "admin" then
        .resp { status := 401, message := Unauthorized }
      else
        .resp { status := 200, message := "users fetched" }

end GoHandler

namespace GoJwt

/-! Helper lemmas about the embedded parser. -/

theorem parseWithClaims_garbage (key raw : String) (now : Int) :
    parseWithClaims (.garbage raw) now key = (none, some { Malformed := true }) := rfl

theorem validateTokenWithKey_garbage (key raw : String) (now : Int) :
    validateTokenWithKey key (.garbage raw) now = (none, some { Malformed := true }) := rfl

theorem validateTokenWithKey_of_parse_err (key : String) (s : TokenStr) (now : Int)
    (t? : Option ParsedToken) (e : ValidationError)
    (h : parseWithClaims s now key = (t?, some e)) :
    validateTokenWithKey key s now = (none, some e) := by
  unfold validateTokenWithKey
  rw [h]
  cases t? <;> rfl

theorem validateTokenWithKey_ok (key : String) (c : Claims) (now : Int)
    (hexp : verifyExp c.std.ExpiresAt now false = true)
    (hiat : verifyIat c.std.IssuedAt now false = true)
    (hnbf : verifyNbf c.std.NotBefore now false = true) :
    validateTokenWithKey key
      (.compact "HS256" c (hmacSign "HS256" key { alg := "HS256", claims := c })) now
      = (some c, none) := by
  unfold validateTokenWithKey parseWithClaims
  simp [registeredAlgs, methodVerify, Claims.validate, hexp, hiat, hnbf,
        ValidationError.isValid]

theorem parseWithClaims_badsig (key : String) (c : Claims) (sig : Sig) (now : Int)
    (h : sig ≠ hmacSign "HS256" key { alg := "HS256", claims := c }) :
    ∃ e : ValidationError,
      parseWithClaims (.compact "HS256" c sig) now key
        = (some { claims := c, valid := false }, some e) ∧ e.SignatureInvalid = true := by
  refine ⟨{ c.validate now with SignatureInvalid := true }, ?_, rfl⟩
  unfold parseWithClaims
  simp [registeredAlgs, methodVerify, h, ValidationError.isValid]

theorem parseWithClaims_expired (key : String) (c : Claims) (sig : Sig) (now : Int)
    (hne : c.std.ExpiresAt ≠ 0) (hlt : c.std.ExpiresAt < now) :
    ∃ e : ValidationError,
      parseWithClaims (.compact "HS256" c sig) now key
        = (some { claims := c, valid := false }, some e) ∧ e.Expired = true := by
  have hex : verifyExp c.std.ExpiresAt now false = false := by
    simp [verifyExp, hne]
    omega
  by_cases hsig : methodVerify "HS256" { alg := "HS256", claims := c } sig key
  · refine ⟨c.validate now, ?_, by simp [Claims.validate, hex]⟩
    unfold parseWithClaims
    simp [registeredAlgs, hsig, ValidationError.isValid, Claims.validate, hex]
  · refine ⟨{ c.validate now with SignatureInvalid := true }, ?_, by simp [Claims.validate, hex]⟩
    unfold parseWithClaims
    simp [registeredAlgs, hsig, ValidationError.isValid, Claims.validate, hex]

theorem parseWithClaims_compact (key alg : String) (c : Claims) (sig : Sig) (now : Int) :
    parseWithClaims (.compact alg c sig) now key =
      if !(registeredAlgs.contains alg) then
        (some { claims := c, valid := false }, some { Unverifiable := true })
      else if (if methodVerify alg { alg := alg, claims := c } sig key then c.validate now
               else { c.validate now with SignatureInvalid := true }).isValid then
        (some { claims := c, valid := true }, none)
      else
        (some { claims := c, valid := false },
         some (if methodVerify alg { alg := alg, claims := c } sig key then c.validate now
               else { c.validate now with SignatureInvalid := true })) := rfl

theorem validateTokenWithKey_snd_none (key : String) (s : TokenStr) (now : Int)
    (h : (validateTokenWithKey key s now).snd = none) :
    ∃ c, validateTokenWithKey key s now = (some c, none) := by
  cases s with
  | garbage raw => simp [validateTokenWithKey, parseWithClaims] at h
  | compact alg c sig =>
    unfold validateTokenWithKey at h ⊢
    rw [parseWithClaims_compact] at h ⊢
    split_ifs at h ⊢ <;> simp_all

end GoJwt

namespace GoJwt

/-- C1: for every pair of strings (email, role), validating the token string
produced by `CreateToken email role` at a time strictly before the embedded
12-hour expiry returns claims whose Email equals email and whose Role equals
role, with no error. -/
theorem createToken_validateToken_roundtrip (email role : String) (t0 t1 : Int)
    (h : t1 < t0 + 12 * 3600) :
    ValidateToken (CreateToken t0 email role).fst t1
      = (some { Email := email, Role := role, std := { ExpiresAt := t0 + 12 * 3600 } }, none) := by
  have hexp : verifyExp (t0 + 12 * 3600) t1 false = true := by
    unfold verifyExp
    split
    · rfl
    · simp
      omega
  have hiat : verifyIat 0 t1 false = true := by simp [verifyIat]
  have hnbf : verifyNbf 0 t1 false = true := by simp [verifyNbf]
  exact validateTokenWithKey_ok JwtToken
    { Email := email, Role := role, std := { ExpiresAt := t0 + 12 * 3600 } } t1 hexp hiat hnbf

/-- Witness for C1: issue at time 0, validate at time 1. -/
theorem createToken_validateToken_roundtrip_witness :
    ValidateToken (CreateToken 0 "a@example.com" "admin").fst 1
      = (some { Email := "a@example.com", Role := "admin",
                std := { ExpiresAt := 0 + 12 * 3600 } }, none) :=
  createToken_validateToken_roundtrip "a@example.com" "admin" 0 1 (by norm_num)

/-- C2: ValidateToken signals each verification-time failure with its own
flag of the returned error: the Malformed flag on a string that is not a
parsable compact token, the SignatureInvalid flag when the signature is not
the HMAC of the signed content under the SigningKey, and the Expired flag
when the current time is strictly past the embedded expiresAt; the claims
pointer is nil in every failure case. -/
theorem validateToken_error_kinds :
    (∀ (raw : String) (now : Int),
      ValidateToken (.garbage raw) now = (none, some { Malformed := true })) ∧
    (∀ (c : Claims) (sig : Sig) (now : Int),
      sig ≠ hmacSign "HS256" JwtToken { alg := "HS256", claims := c } →
      ∃ e, ValidateToken (.compact "HS256" c sig) now = (none, some e) ∧
        e.SignatureInvalid = true) ∧
    (∀ (c : Claims) (sig : Sig) (now : Int),
      c.std.ExpiresAt ≠ 0 → c.std.ExpiresAt < now →
      ∃ e, ValidateToken (.compact "HS256" c sig) now = (none, some e) ∧
        e.Expired = true) := by
  refine ⟨fun raw now => validateTokenWithKey_garbage JwtToken raw now, ?_, ?_⟩
  · intro c sig now hsig
    obtain ⟨e, he, hE⟩ := parseWithClaims_badsig JwtToken c sig now hsig
    exact ⟨e, validateTokenWithKey_of_parse_err JwtToken _ now _ e he, hE⟩
  · intro c sig now hne hlt
    obtain ⟨e, he, hE⟩ := parseWithClaims_expired JwtToken c sig now hne hlt
    exact ⟨e, validateTokenWithKey_of_parse_err JwtToken _ now _ e he, hE⟩

/-- Witness for C2: a garbage string, a token signed under the key
"otherKey", and a token with expiry 1 validated at time 2. -/
theorem validateToken_error_kinds_witness :
    (ValidateToken (.garbage "not.a.token") 0 = (none, some { Malformed := true })) ∧
    (∃ e, ValidateToken (.compact "HS256" { Email := "a@example.com", Role := "admin" }
        (hmacSign "HS256" "otherKey"
          { alg := "HS256", claims := { Email := "a@example.com", Role := "admin" } })) 0
      = (none, some e) ∧ e.SignatureInvalid = true) ∧
    (∃ e, ValidateToken (.compact "HS256"
        { Email := "a@example.com", Role := "admin", std := { ExpiresAt := 1 } }
        (hmacSign "HS256" JwtToken
          { alg := "HS256",
            claims := { Email := "a@example.com", Role := "admin",
                        std := { ExpiresAt := 1 } } })) 2
      = (none, some e) ∧ e.Expired = true) :=
  ⟨validateToken_error_kinds.1 "not.a.token" 0,
   validateToken_error_kinds.2.1 _ _ 0 (by decide),
   validateToken_error_kinds.2.2 _ _ 2 (by decide) (by decide)⟩

/-- C3 (counterexample): the claim that some input makes ValidateToken
return a nil claims pointer together with a nil error is false — no input
does, because a nil parse error forces the Valid flag, making the
not-Valid branch unreachable. -/
theorem validateToken_never_nil_nil :
    ¬ ∃ (s : TokenStr) (now : Int), ValidateToken s now = (none, none) := by
  rintro ⟨s, now, h⟩
  have h2 : (validateTokenWithKey JwtToken s now).snd = none := congrArg Prod.snd h
  obtain ⟨c, hc⟩ := validateTokenWithKey_snd_none JwtToken s now h2
  have hc2 : ValidateToken s now = (some c, none) := hc
  rw [h] at hc2
  simp at hc2

/-- C3 (amended): the not-Valid branch of ValidateToken would return a nil
claims pointer and a nil error, but it is dead code: whenever ValidateToken
returns a nil error it returns decoded claims, so the pair (nil, nil) is
never produced. -/
theorem validateToken_err_none_gives_claims (s : TokenStr) (now : Int)
    (h : (ValidateToken s now).snd = none) :
    ∃ c, ValidateToken s now = (some c, none) :=
  validateTokenWithKey_snd_none JwtToken s now h

/-- Witness for the amended C3: a freshly issued token validated before
expiry has a nil error, hence non-nil claims. -/
theorem validateToken_err_none_gives_claims_witness :
    ∃ c, ValidateToken (CreateToken 0 "b@example.com" "user").fst 1 = (some c, none) :=
  validateToken_err_none_gives_claims _ 1 rfl

/-- C4: every string that is not structurally a three-part compact token
(or has non-decodable segments) makes ValidateToken fail with the Malformed
error flag and a nil claims value; the embedded function is total, so it
returns normally with this error value on every such input rather than
panicking. -/
theorem validateToken_malformed_total (raw : String) (now : Int) :
    ValidateToken (.garbage raw) now = (none, some { Malformed := true }) :=
  validateTokenWithKey_garbage JwtToken raw now

/-- C5: CreateToken succeeds with a compact token whose header algorithm is
HS256, whose claims carry the given email and role with expiresAt equal to
the current Unix time plus exactly 12 hours, and whose signature is the
HMAC-SHA256 tag of the signed content under the process-wide JwtToken key
(so it verifies under that key). -/
theorem createToken_exp_and_hs256_signature (now : Int) (email role : String) :
    ∃ c sig, CreateToken now email role = (.compact "HS256" c sig, none) ∧
      c.Email = email ∧ c.Role = role ∧ c.std.ExpiresAt = now + 12 * 3600 ∧
      sig = hmacSign "HS256" JwtToken { alg := "HS256", claims := c } ∧
      methodVerify "HS256" { alg := "HS256", claims := c } sig JwtToken = true := by
  refine ⟨_, _, rfl, rfl, rfl, rfl, rfl, ?_⟩
  simp [methodVerify]

/-- C6: a token whose embedded expiresAt is nonzero (present) and strictly
in the past at validation time fails with the Expired flag and a nil claims
value, even when its signature is the correct HMAC tag under the
process-wide key. -/
theorem validateToken_expired_even_with_valid_sig (c : Claims) (now : Int)
    (hne : c.std.ExpiresAt ≠ 0) (hpast : c.std.ExpiresAt < now) :
    ∃ e, ValidateToken
        (.compact "HS256" c (hmacSign "HS256" JwtToken { alg := "HS256", claims := c })) now
      = (none, some e) ∧ e.Expired = true := by
  obtain ⟨e, he, hE⟩ := parseWithClaims_expired JwtToken c _ now hne hpast
  exact ⟨e, validateTokenWithKey_of_parse_err JwtToken _ now _ e he, hE⟩

/-- Witness for C6: a correctly signed token with expiry 5 validated at
time 6. -/
theorem validateToken_expired_witness :
    ∃ e, ValidateToken (.compact "HS256"
        { Email := "a@example.com", Role := "admin", std := { ExpiresAt := 5 } }
        (hmacSign "HS256" JwtToken
          { alg := "HS256",
            claims := { Email := "a@example.com", Role := "admin",
                        std := { ExpiresAt := 5 } } })) 6
      = (none, some e) ∧ e.Expired = true :=
  validateToken_expired_even_with_valid_sig _ 6 (by decide) (by decide)

/-- C7: a token whose signature tag was produced under a secret different
from JwtToken fails with the SignatureInvalid flag and nil claims; more
generally any signature bytes other than the correct HMAC tag of the signed
content (such as the bytes decoded after flipping a character of the
signature segment) fail the same way. -/
theorem validateToken_signature_mismatch :
    (∀ (c : Claims) (key2 : String) (now : Int), key2 ≠ JwtToken →
      ∃ e, ValidateToken (.compact "HS256" c
          (hmacSign "HS256" key2 { alg := "HS256", claims := c })) now
        = (none, some e) ∧ e.SignatureInvalid = true) ∧
    (∀ (c : Claims) (sig : Sig) (now : Int),
      sig ≠ hmacSign "HS256" JwtToken { alg := "HS256", claims := c } →
      ∃ e, ValidateToken (.compact "HS256" c sig) now = (none, some e) ∧
        e.SignatureInvalid = true) := by
  have main : ∀ (c : Claims) (sig : Sig) (now : Int),
      sig ≠ hmacSign "HS256" JwtToken { alg := "HS256", claims := c } →
      ∃ e, ValidateToken (.compact "HS256" c sig) now = (none, some e) ∧
        e.SignatureInvalid = true := by
    intro c sig now hsig
    obtain ⟨e, he, hE⟩ := parseWithClaims_badsig JwtToken c sig now hsig
    exact ⟨e, validateTokenWithKey_of_parse_err JwtToken _ now _ e he, hE⟩
  refine ⟨fun c key2 now hk => main c _ now ?_, main⟩
  simp [hmacSign]
  intro h1
  exact absurd h1 hk

/-- Witness for C7: a tag under the key "wrongKey", and a tag over different
signed content. -/
theorem validateToken_signature_mismatch_witness :
    (∃ e, ValidateToken (.compact "HS256" { Email := "b@example.com", Role := "user" }
        (hmacSign "HS256" "wrongKey"
          { alg := "HS256", claims := { Email := "b@example.com", Role := "user" } })) 0
      = (none, some e) ∧ e.SignatureInvalid = true) ∧
    (∃ e, ValidateToken (.compact "HS256" { Email := "b@example.com", Role := "user" }
        (hmacSign "HS256" JwtToken
          { alg := "HS256", claims := { Email := "c@example.com", Role := "user" } })) 0
      = (none, some e) ∧ e.SignatureInvalid = true) :=
  ⟨validateToken_signature_mismatch.1 _ "wrongKey" 0 (by decide),
   validateToken_signature_mismatch.2 _ _ 0 (by decide)⟩

/-- C8: both token operations leave the package state (the JwtToken
variable) unchanged, and their results depend only on the inputs, the
current time and the key value: two runs over states agreeing on JwtToken
produce identical results. -/
theorem token_ops_pure (st1 st2 : TokenPkgState) (now : Int) (email role : String)
    (s : TokenStr) (h : st1.JwtToken = st2.JwtToken) :
    (CreateTokenS st1 now email role).fst = st1 ∧
    (ValidateTokenS st1 s now).fst = st1 ∧
    (CreateTokenS st1 now email role).snd = (CreateTokenS st2 now email role).snd ∧
    (ValidateTokenS st1 s now).snd = (ValidateTokenS st2 s now).snd := by
  refine ⟨rfl, rfl, ?_, ?_⟩ <;> simp [CreateTokenS, ValidateTokenS, h]

/-- Witness for C8 at the deployed key value. -/
theorem token_ops_pure_witness :
    (CreateTokenS { JwtToken := "jwtToken" } 0 "a@example.com" "admin").fst
      = { JwtToken := "jwtToken" } ∧
    (ValidateTokenS { JwtToken := "jwtToken" } (.garbage "x") 0).fst
      = { JwtToken := "jwtToken" } ∧
    (CreateTokenS { JwtToken := "jwtToken" } 0 "a@example.com" "admin").snd
      = (CreateTokenS { JwtToken := "jwtToken" } 0 "a@example.com" "admin").snd ∧
    (ValidateTokenS { JwtToken := "jwtToken" } (.garbage "x") 0).snd
      = (ValidateTokenS { JwtToken := "jwtToken" } (.garbage "x") 0).snd :=
  token_ops_pure { JwtToken := "jwtToken" } { JwtToken := "jwtToken" } 0
    "a@example.com" "admin" (.garbage "x") rfl

end GoJwt

namespace GoHandler

open GoJwt

theorem fetch_some (users : List UserData) (auth : TokenStr) (now : Int) :
    fetch (some users) auth now =
      match ValidateToken auth now with
      | (none, _) => .panicNilDeref
      | (some claims, _) =>
        if claims.Role ≠ "admin" then .resp { status := 401, message := Unauthorized }
        else .resp { status := 200, message := "users fetched" } := rfl

/-- C9: when ValidateToken on the raw Authorization header returns a nil
claims pointer (its error being discarded), the fetch handler dereferences
the nil pointer at the role check and panics instead of answering 401. -/
theorem fetch_panics_on_nil_claims (users : List UserData) (auth : TokenStr) (now : Int)
    (h : (ValidateToken auth now).fst = none) :
    fetch (some users) auth now = .panicNilDeref := by
  have hv : ValidateToken auth now = (none, (ValidateToken auth now).snd) := by
    rw [← h]
  rw [fetch_some, hv]

/-- Witness for C9: a raw Authorization header with the Bearer prefix is not
a parsable compact token, so the fetch handler panics on it. -/
theorem fetch_panics_on_nil_claims_witness :
    fetch (some []) (.garbage "Bearer abc") 0 = .panicNilDeref :=
  fetch_panics_on_nil_claims [] (.garbage "Bearer abc") 0 rfl

/-- C10: login and register discard the error component of the CreateToken
call; when that call fails (returning the empty string and a signing
error), both handlers still answer HTTP 200 with the empty string in the
token field. -/
theorem login_register_discard_signing_error
    (create : String → String → TokenStr × Option Unit) (u : UserData)
    (h : create u.Email u.Role = (.garbage "", some ())) :
    login create (some u)
      = { status := 200, message := "user logged in",
          token := some (.garbage ""), data := some u } ∧
    register create (some u)
      = { status := 200, message := "user registered",
          token := some (.garbage ""), data := some u } := by
  constructor <;> simp [login, register, h]

/-- Witness for C10: a signer that always fails. -/
theorem login_register_discard_signing_error_witness :
    login (fun _ _ => (.garbage "", some ()))
        (some { Email := "a@example.com", Role := "user" })
      = { status := 200, message := "user logged in", token := some (.garbage ""),
          data := some { Email := "a@example.com", Role := "user" } } ∧
    register (fun _ _ => (.garbage "", some ()))
        (some { Email := "a@example.com", Role := "user" })
      = { status := 200, message := "user registered", token := some (.garbage ""),
          data := some { Email := "a@example.com", Role := "user" } } :=
  login_register_discard_signing_error (fun _ _ => (.garbage "", some ()))
    { Email := "a@example.com", Role := "user" } rfl

end GoHandler
